import Mathlib

set_option maxHeartbeats 1000000

/-!
Shallow embedding of the excel_handler repository.

Sources embedded:
- src/shared/constants.py          (the four static configuration catalogs)
- src/shared/exceptions.py         (error classes, as the `PyErr` inductive)
- src/services/excel_handler/style_builder.py
- src/services/excel_handler/set_sheet_formatter.py
- src/services/excel_handler/excel_reader.py (column validation)

Python dictionaries are modelled as association lists (`dictGet` models
`dict.get`); mutable worksheet state is modelled by the `Sheet` record with
explicit state passing; code that can raise returns `Except`.
-/

/-- Error classes raised by the code. `valueError`, `typeError` and
`indexError` model the Python builtins; `validationError` models
`shared.exceptions.ValidationError`, whose message embeds the sorted missing
and sorted available column lists (carried here structurally, together with
the `field` attribute); `registryError` models the `RegistryError` class
that the specification names — the repository defines no such class, and no
code in this file ever constructs it; it exists only so that claims naming
it can be stated. -/
inductive PyErr where
  | valueError (msg : String)
  | typeError (msg : String)
  | indexError (msg : String)
  | validationError (missing : List String) (available : List String) (field : String)
  | excelFileNotFoundError (msg : String)
  | configError (msg : String)
  | registryError (msg : String)
deriving DecidableEq

/-- Models Python `dict.get(key)`: first binding of the key, `none` if absent.
The catalog dictionaries have pairwise distinct keys, so first-match equals
dict semantics. -/
def dictGet {α : Type} (l : List (String × α)) (k : String) : Option α :=
  (l.find? (fun p => p.fst = k)).map Prod.snd

/-- Models Python `dict.get(key, default)`. -/
def dictGetD {α : Type} (l : List (String × α)) (k : String) (d : α) : α :=
  (dictGet l k).getD d

/-- Models Python `list.index(x)` (index of the first occurrence); the source
only calls it on members of the list, where no exception arises. -/
def listIndex (x : String) : List String → Nat
  | [] => 0
  | y :: ys => if y = x then 0 else listIndex x ys + 1

/-- DECLARE_DATA_TYPE_CONFIG from src/shared/constants.py:
column name to semantic data type. -/
def DECLARE_DATA_TYPE_CONFIG : List (String × String) :=
  [("dated_created", "date_time"),
   ("date_modified", "date"),
   ("date_checked", "date_time"),
   ("date", "date_time"),
   ("number_no_decimal", "int"),
   ("number_decimal", "float"),
   ("currency", "currency"),
   ("percentage", "percentage")]

/-- MAP_DATA_TYPE_STYLE_NAME_CONFIG from src/shared/constants.py:
data type to style name. -/
def MAP_DATA_TYPE_STYLE_NAME_CONFIG : List (String × String) :=
  [("date", "date_style"),
   ("date_time", "date_time_style"),
   ("int", "int_style"),
   ("float", "float_style"),
   ("currency", "currency_style"),
   ("percentage", "percentage_style"),
   ("default_data_type", "default_style")]

/-- One entry of the visual style catalog: a Python dict with optional keys.
`none` in a field means the key is absent from the dict.  The doubly
optional fields (`font_vertAlign`, `fill_type`) model keys that may be
present with value `None`. -/
structure VEntry where
  font_name : Option String := none
  font_size : Option Int := none
  font_bold : Option Bool := none
  font_italic : Option Bool := none
  font_vertAlign : Option (Option String) := none
  font_underline : Option String := none
  font_strike : Option Bool := none
  font_color : Option String := none
  fill_type : Option (Option String) := none
  fill_start_color : Option String := none
  fill_end_color : Option String := none
  alignment_horizontal : Option String := none
  alignment_vertical : Option String := none
  alignment_wrap_text : Option Bool := none
  auto_adjust_width : Option Bool := none
  max_column_width : Option Int := none
  auto_adjust_height : Option Bool := none
  max_column_height : Option Int := none
  alternating_rows : Option Bool := none
  mode_on : Option Bool := none
  freeze_cell : Option String := none
deriving DecidableEq

/-- One entry of the data-type format catalog. -/
structure DEntry where
  format : Option String := none
deriving DecidableEq

/-- A catalog maps style names to entries; the `Option` on the entry models a
falsy value (an empty dict or `None`), which Python's `if not style_name_cfg`
treats the same as a missing key. -/
abbrev VisualCatalog := List (String × Option VEntry)

abbrev DataTypeCatalog := List (String × Option DEntry)

/-- VISUAL_STYLE_NAME_CONFIG from src/shared/constants.py. -/
def VISUAL_STYLE_NAME_CONFIG : VisualCatalog :=
  [("header_style", some
      { font_name := some "Calibri", font_size := some 12, font_bold := some true,
        font_italic := some false, font_vertAlign := some none,
        font_underline := some "none", font_strike := some false,
        font_color := some "FFFFFF", fill_type := some (some "solid"),
        fill_start_color := some "366092", fill_end_color := some "366092",
        alignment_horizontal := some "center", alignment_vertical := some "center",
        alignment_wrap_text := some false }),
   ("body_style", some
      { font_name := some "Calibri", font_size := some 11, font_bold := some false,
        font_italic := some false, font_vertAlign := some none,
        font_underline := some "none", font_strike := some false,
        font_color := some "000000", fill_type := some none,
        fill_start_color := some "FFFFFF", fill_end_color := some "FFFFFF",
        alignment_horizontal := some "left", alignment_vertical := some "top",
        alignment_wrap_text := some false }),
   ("auto_adjust_style", some
      { auto_adjust_width := some true, max_column_width := some 60,
        auto_adjust_height := some false, max_column_height := some 15 }),
   ("alternating_style", some
      { alternating_rows := some true, fill_start_color := some "F8F9FA",
        fill_end_color := some "FFFFFF" }),
   ("freeze_panes_style", some
      { mode_on := some true, freeze_cell := some "B2" }),
   ("filter_style", some
      { mode_on := some true })]

/-- DATA_TYPE_STYLE_NAME_CONFIG from src/shared/constants.py. -/
def DATA_TYPE_STYLE_NAME_CONFIG : DataTypeCatalog :=
  [("date_style", some { format := some "dd/mm/yyyy" }),
   ("date_time_style", some { format := some "dd/mm/yyyy hh:mm:ss" }),
   ("int_style", some { format := some "#,##0" }),
   ("float_style", some { format := some "#,##0.00" }),
   ("currency_style", some { format := some "\"$\"#,##0;[Red]-#,##0" }),
   ("percentage_style", some { format := some "0.00%" }),
   ("default_style", some { format := some "General" })]

/-- openpyxl `Font` object, as built by `_build_named_style`. -/
structure Font where
  name : String
  size : Int
  bold : Bool
  italic : Bool
  vertAlign : Option String
  underline : String
  strike : Bool
  color : String
deriving DecidableEq

/-- openpyxl `PatternFill` object, as built by `_build_named_style`. -/
structure Fill where
  fill_type : Option String
  start_color : String
  end_color : String
deriving DecidableEq

/-- openpyxl `Alignment` object, as built by `_build_named_style` (named
`CellAlign` here because `Alignment` is taken by the ambient library). -/
structure CellAlign where
  horizontal : String
  vertical : String
  wrap_text : Bool
deriving DecidableEq

/-- openpyxl `NamedStyle`: the StyleDefinition of the spec.  `none` in a
sub-object field means the attribute group was never assigned and keeps the
rendering target's default (for `number_format`, the default `"General"`). -/
structure NamedStyle where
  name : String
  font : Option Font := none
  fill : Option Fill := none
  alignment : Option CellAlign := none
  number_format : Option String := none
deriving DecidableEq

/-- Embeds `_build_named_style` from style_builder.py, parameterised by the two
catalogs the source reads as globals.  Returns `none` exactly where the
source returns `None` (catalog lookup miss / falsy entry, logged as a
warning). -/
def build_named_style (visual : VisualCatalog) (dts : DataTypeCatalog)
    (style_name style_type : String) : Option NamedStyle :=
  let base : NamedStyle := { name := style_name }
  if style_type = "VISUAL_STYLE_NAME_CONFIG" then
    match (dictGet visual style_name).bind id with
    | none => none
    | some cfg =>
      let fontObj : Font :=
        { name := cfg.font_name.getD "Calibri",
          size := cfg.font_size.getD 11,
          bold := cfg.font_bold.getD false,
          italic := cfg.font_italic.getD false,
          vertAlign := cfg.font_vertAlign.getD none,
          underline := cfg.font_underline.getD "none",
          strike := cfg.font_strike.getD false,
          color := cfg.font_color.getD "000000" }
      let fillObj : Fill :=
        { fill_type := cfg.fill_type.getD none,
          start_color := cfg.fill_start_color.getD "FFFFFF",
          end_color := cfg.fill_end_color.getD "FFFFFF" }
      let alignObj : CellAlign :=
        { horizontal := cfg.alignment_horizontal.getD "left",
          vertical := cfg.alignment_vertical.getD "top",
          wrap_text := cfg.alignment_wrap_text.getD false }
      let s1 := if cfg.font_name.isSome then { base with font := some fontObj } else base
      let s2 := if cfg.fill_type.isSome then { s1 with fill := some fillObj } else s1
      let s3 :=
        if cfg.alignment_horizontal.isSome then { s2 with alignment := some alignObj }
        else s2
      some s3
  else if style_type = "DATA_TYPE_STYLE_NAME_CONFIG" then
    match (dictGet dts style_name).bind id with
    | none => none
    | some cfg =>
      if cfg.format.isSome then
        some { base with number_format := some (cfg.format.getD "General") }
      else some base
  else
    some base

/-- Embeds `build_bulk_named_style` from style_builder.py: iterates the keys of both
catalogs in order and appends each `_build_named_style` result — including
`None` results — to the result list. -/
def build_bulk_named_style (visual : VisualCatalog) (dts : DataTypeCatalog) :
    List (Option NamedStyle) :=
  let res1 := visual.foldl
    (fun res p => res ++ [build_named_style visual dts p.fst "VISUAL_STYLE_NAME_CONFIG"]) []
  dts.foldl
    (fun res p => res ++ [build_named_style visual dts p.fst "DATA_TYPE_STYLE_NAME_CONFIG"]) res1

/-- openpyxl `Workbook`, reduced to its named-style registry. -/
structure Workbook where
  named_styles : List NamedStyle
deriving DecidableEq

def emptyWorkbook : Workbook := { named_styles := [] }

/-- openpyxl `Workbook.add_named_style` / `NamedStyleList.append`: raises
`TypeError` on a non-NamedStyle argument (here: `none`), `ValueError`
"Style ... exists" on a duplicate name. -/
def add_named_style (wb : Workbook) (style : Option NamedStyle) :
    Except PyErr Workbook :=
  match style with
  | none => .error (.typeError "can only assign NamedStyle")
  | some s =>
    if s.name ∈ wb.named_styles.map NamedStyle.name then
      .error (.valueError ("Style " ++ s.name ++ " exists"))
    else
      .ok { named_styles := wb.named_styles ++ [s] }

/-- The registration loop of `SetSheetFormatter._init_global_styles`: adds
each built style in order; the first exception propagates (the source logs
and re-raises).  The error carries the workbook as mutated so far, since a
Python exception does not roll back earlier registrations. -/
def registerLoop : List (Option NamedStyle) → Workbook → Except (PyErr × Workbook) Workbook
  | [], wb => .ok wb
  | s :: rest, wb =>
    match add_named_style wb s with
    | .ok wb2 => registerLoop rest wb2
    | .error e => .error (e, wb)

/-- Embeds `SetSheetFormatter._init_global_styles`, parameterised by the catalogs:
builds the bulk style list and registers every item into the workbook. -/
def init_global_styles (wb : Workbook) (visual : VisualCatalog) (dts : DataTypeCatalog) :
    Except (PyErr × Workbook) Workbook :=
  registerLoop (build_bulk_named_style visual dts) wb

/-- An openpyxl `Worksheet`, reduced to the state the formatter touches:
per-cell named-style assignment (1-indexed row/column), the used-range
columns (each column a list of its cells' stringified values, `none` for an
empty/absent value), per-column widths (1-indexed), the auto-filter range
and the freeze-panes anchor.  `dims` is the used-range reference string
(`ws.dimensions`), maintained by the writer collaborator. -/
structure Sheet where
  styles : Int × Int → Option String
  columns : List (List (Option String))
  widths : Int → Option Int
  autoFilterRef : Option String
  freezePanes : Option String
  dims : String

/-- A fresh sheet with no styling, a given column grid and used range. -/
def blankSheet (cols : List (List (Option String))) (d : String) : Sheet :=
  { styles := fun _ => none, columns := cols, widths := fun _ => none,
    autoFilterRef := none, freezePanes := none, dims := d }

/-- Python `ws.cell(row=r, column=c).style = s`. -/
def setCellStyle (ws : Sheet) (r c : Int) (s : String) : Sheet :=
  { ws with styles := fun p => if p = (r, c) then some s else ws.styles p }

/-- Python `range(a, b)` over ints. -/
def rangeInt (a b : Int) : List Int :=
  (List.range (b - a).toNat).map (fun (i : Nat) => a + Int.ofNat i)

/-- The nested cell loop of `SetSheetFormatter._apply_styles`. -/
def applyStylesRange (ws : Sheet) (row_idx col_idx num_rows num_cols : Int)
    (applied_style_name : String) : Sheet :=
  (rangeInt row_idx (row_idx + num_rows)).foldl
    (fun acc r =>
      (rangeInt col_idx (col_idx + num_cols)).foldl
        (fun acc2 c => setCellStyle acc2 r c applied_style_name) acc)
    ws

/-- Embeds `SetSheetFormatter._apply_styles`: guard on the starting indices, then
style the rectangular range. -/
def apply_styles (ws : Sheet) (row_idx col_idx num_rows num_cols : Int)
    (applied_style_name : String) : Except PyErr Sheet :=
  if row_idx < 1 ∨ col_idx < 1 then
    .error (.valueError
      ("Row and column indices must be >= 1, got row=" ++ toString row_idx ++
       ", col=" ++ toString col_idx))
  else
    .ok (applyStylesRange ws row_idx col_idx num_rows num_cols applied_style_name)

/-- Embeds `SetSheetFormatter.format_style_header_body`. -/
def format_style_header_body (ws : Sheet) (num_rows num_cols : Int) :
    Except PyErr Sheet :=
  if num_rows < 1 ∨ num_cols < 1 then
    .error (.valueError
      ("num_rows (" ++ toString num_rows ++ ") and num_cols (" ++
       toString num_cols ++ ") must be positive"))
  else do
    let ws1 ← apply_styles ws 1 1 1 num_cols "header_style"
    let ws2 ← apply_styles ws1 2 1 (num_rows - 1) num_cols "body_style"
    pure ws2

/-- The two-stage style resolution inlined in the loop body of
`format_style_base_on_data_type` (the spec's `resolveStyleName`): column
name to data type with fallback `default_data_type`, then data type to
style name with fallback `default_style`. -/
def resolve_style_name (col : String) : String :=
  let cfg_data_type := dictGetD DECLARE_DATA_TYPE_CONFIG col "default_data_type"
  dictGetD MAP_DATA_TYPE_STYLE_NAME_CONFIG cfg_data_type "default_style"

/-- Embeds `SetSheetFormatter.format_style_base_on_data_type`: empty column list is
a warning no-op; negative `num_rows` raises `ValueError`; otherwise, for
each column name in order, resolve its style and apply it to rows
2..num_rows+1 of the column at `column_name_lst.index(col) + 1`. -/
def format_style_base_on_data_type (ws : Sheet) (column_name_lst : List String)
    (num_rows : Int) : Except PyErr Sheet :=
  if column_name_lst.isEmpty then
    .ok ws
  else if num_rows < 0 then
    .error (.valueError ("num_rows must be non-negative, got " ++ toString num_rows))
  else
    column_name_lst.foldlM
      (fun acc col =>
        apply_styles acc 2 ((listIndex col column_name_lst : Int) + 1)
          num_rows 1 (resolve_style_name col))
      ws

/-- The body of `SetSheetFormatter.set_filter_mode` (inside the `try`):
reads `filter_style.mode_on` (default `False`, also when the `filter_style`
entry is absent or falsy) and, when on, sets the auto-filter range to the
sheet's used range. -/
def set_filter_mode_body (cfg : VisualCatalog) (ws : Sheet) : Except PyErr Sheet :=
  let filter_config := (dictGet cfg "filter_style").bind id
  if (filter_config.bind (fun e => e.mode_on)).getD false then
    .ok { ws with autoFilterRef := some ws.dims }
  else
    .ok ws

/-- Embeds `SetSheetFormatter.set_filter_mode`: the whole body runs inside
`try/except Exception`, which logs and suppresses any failure. -/
def set_filter_mode (cfg : VisualCatalog) (ws : Sheet) : Except PyErr Sheet :=
  match set_filter_mode_body cfg ws with
  | .ok s => .ok s
  | .error _ => .ok ws

/-- Models the rendering target's validation of a cell reference such as
`"B2"`: one or more capital letters followed by one or more digits; a
malformed reference fails (raises). -/
def checkCellRef (s : String) : Except PyErr Unit :=
  let letters := s.toList.takeWhile (fun c => c.isUpper)
  let digits := s.toList.drop letters.length
  if letters ≠ [] ∧ digits ≠ [] ∧ digits.all (fun c => c.isDigit) then .ok ()
  else .error (.valueError (s ++ " is not a valid coordinate"))

/-- The body of `SetSheetFormatter.set_freeze_panes_style` (inside the
`try`): reads `freeze_panes_style.mode_on` and `freeze_cell`
(default `"B2"`) and, when on, assigns the freeze-panes anchor; assigning a
malformed reference fails inside the body. -/
def set_freeze_panes_style_body (cfg : VisualCatalog) (ws : Sheet) : Except PyErr Sheet :=
  let freeze_config := (dictGet cfg "freeze_panes_style").bind id
  if (freeze_config.bind (fun e => e.mode_on)).getD false then
    let freeze_cell := (freeze_config.bind (fun e => e.freeze_cell)).getD "B2"
    match checkCellRef freeze_cell with
    | .ok _ => .ok { ws with freezePanes := some freeze_cell }
    | .error e => .error e
  else
    .ok ws

/-- Embeds `SetSheetFormatter.set_freeze_panes_style`: body wrapped in
`try/except Exception`, which logs and suppresses any failure. -/
def set_freeze_panes_style (cfg : VisualCatalog) (ws : Sheet) : Except PyErr Sheet :=
  match set_freeze_panes_style_body cfg ws with
  | .ok s => .ok s
  | .error _ => .ok ws

/-- Python `len(str(cell.value or ""))` for one cell: an empty/absent value counts
as zero length. -/
def cellLen (cell : Option String) : Nat := (cell.getD "").length

/-- Python `max([len(str(cell.value or "")) for cell in col], default=5)`. -/
def maxContentLen (col : List (Option String)) : Nat :=
  ((col.map cellLen).max?).getD 5

/-- The column loop of `SetSheetFormatter.auto_adjust_cols`: for each
used-range column (1-indexed by position, standing for its column letter)
set its width to `min(max_len + 8, max_width)`.  On a column with no cells,
`col[0].column_letter` raises `IndexError`; the error carries the sheet as
mutated so far, since the earlier width assignments persist. -/
def adjustLoop (max_width : Int) :
    List (List (Option String)) → Int → Sheet → Except (PyErr × Sheet) Sheet
  | [], _, ws => .ok ws
  | col :: rest, idx, ws =>
    let max_len : Nat := maxContentLen col
    let adjusted_width : Int := min ((max_len : Int) + 8) max_width
    match col with
    | [] => .error (.indexError "tuple index out of range", ws)
    | _ :: _ =>
      adjustLoop max_width rest (idx + 1)
        { ws with widths := fun i => if i = idx then some adjusted_width else ws.widths i }

/-- The body of `SetSheetFormatter.auto_adjust_cols` (inside the `try`):
reads `auto_adjust_style.auto_adjust_width` (default `False`) and
`max_column_width` (default 60), then runs the column loop. -/
def auto_adjust_cols_body (cfg : VisualCatalog) (ws : Sheet) :
    Except (PyErr × Sheet) Sheet :=
  let auto_adjust_config := (dictGet cfg "auto_adjust_style").bind id
  if ((auto_adjust_config.bind (fun e => e.auto_adjust_width)).getD false) = false then
    .ok ws
  else
    let max_width := (auto_adjust_config.bind (fun e => e.max_column_width)).getD 60
    adjustLoop max_width ws.columns 1 ws

/-- Embeds `SetSheetFormatter.auto_adjust_cols`: body wrapped in
`try/except Exception`, which logs and suppresses any failure, keeping the
column widths adjusted before the failure. -/
def auto_adjust_cols (cfg : VisualCatalog) (ws : Sheet) : Except PyErr Sheet :=
  match auto_adjust_cols_body cfg ws with
  | .ok s => .ok s
  | .error (_, wsSoFar) => .ok wsSoFar

/-- The DataFrame as the pipeline sees it: ordered column names and the
number of data rows (`len(df)`). -/
structure Frame where
  cols : List String
  nrows : Nat

/-- Embeds `SetSheetFormatter.run_pipeline`: the fixed five-step sequence.  The
surrounding `try/except` logs and re-raises, so failures of the structural
steps propagate unchanged. -/
def run_pipeline (cfg : VisualCatalog) (ws : Sheet) (df : Frame) :
    Except PyErr Sheet := do
  let num_rows : Int := (df.nrows : Int)
  let num_cols : Int := (df.cols.length : Int)
  let ws1 ← format_style_header_body ws (num_rows + 1) num_cols
  let ws2 ← format_style_base_on_data_type ws1 df.cols num_rows
  let ws3 ← set_filter_mode cfg ws2
  let ws4 ← auto_adjust_cols cfg ws3
  let ws5 ← set_freeze_panes_style cfg ws4
  pure ws5

/-- Python `sorted` on a collection of strings (ascending). -/
def sortedStrList (l : List String) : List String :=
  l.mergeSort (fun a b => a ≤ b)

/-- Embeds `ExcelReader._validate_columns` from excel_reader.py: no-op for an empty
required list; otherwise computes `set(required) - set(columns)` and raises
`ValidationError` reporting the sorted missing and sorted available columns
(carried structurally, as they appear in the message) with
`field="columns"`. -/
def validate_columns (required columns : List String) : Except PyErr Unit :=
  if required.isEmpty then
    .ok ()
  else
    if (required.dedup.filter (fun c => decide (c ∉ columns))).isEmpty then
      .ok ()
    else
      .error (.validationError
        (sortedStrList (required.dedup.filter (fun c => decide (c ∉ columns))))
        (sortedStrList columns.dedup) "columns")

/-- A parsed table: its ordered column names (the data rows play no role in
column validation). -/
structure Table where
  columns : List String

/-- Embeds `ExcelReader.read` after the file has been found and parsed into a
table: the remaining step is column validation, which either returns the
table or raises.  (File existence and parsing are external I/O, out of the
embedding; they fail earlier with `ExcelFileNotFoundError`.) -/
def reader_read (t : Table) (required : List String) : Except PyErr Table :=
  match validate_columns required t.columns with
  | .ok _ => .ok t
  | .error e => .error e


/-! ## Helper lemmas -/

lemma exceptBind_ok {ε α β : Type} (x : α) (f : α → Except ε β) :
    ((Except.ok x : Except ε α) >>= f) = f x := rfl

lemma mem_rangeInt {a b x : Int} : x ∈ rangeInt a b ↔ a ≤ x ∧ x < b := by
  unfold rangeInt
  rw [List.mem_map]
  constructor
  · rintro ⟨i, hi, rfl⟩
    rw [List.mem_range] at hi
    have := Int.lt_toNat.mp hi
    simp only [Int.ofNat_eq_coe]
    omega
  · rintro ⟨h1, h2⟩
    refine ⟨(x - a).toNat, ?_, ?_⟩
    · rw [List.mem_range]
      omega
    · simp only [Int.ofNat_eq_coe]
      omega

lemma foldl_setCellStyle_cols (s : String) (r : Int) :
    ∀ (l : List Int) (ws : Sheet) (r' c' : Int),
      (l.foldl (fun acc c => setCellStyle acc r c s) ws).styles (r', c')
        = if r' = r ∧ c' ∈ l then some s else ws.styles (r', c') := by
  intro l
  induction l with
  | nil => intro ws r' c'; simp
  | cons c cs ih =>
    intro ws r' c'
    rw [List.foldl_cons, ih]
    simp only [setCellStyle, List.mem_cons, Prod.mk.injEq]
    by_cases h1 : r' = r <;> by_cases h2 : c' = c <;> by_cases h3 : c' ∈ cs <;>
      simp [h1, h2, h3]

lemma foldl_rows_styles (s : String) (lc : List Int) :
    ∀ (lr : List Int) (ws : Sheet) (r' c' : Int),
      ((lr.foldl (fun acc r =>
          lc.foldl (fun acc2 c => setCellStyle acc2 r c s) acc) ws).styles (r', c'))
        = if r' ∈ lr ∧ c' ∈ lc then some s else ws.styles (r', c') := by
  intro lr
  induction lr with
  | nil => intro ws r' c'; simp
  | cons r rs ih =>
    intro ws r' c'
    rw [List.foldl_cons, ih]
    rw [foldl_setCellStyle_cols]
    simp only [List.mem_cons]
    by_cases h1 : r' = r <;> by_cases h2 : r' ∈ rs <;> by_cases h3 : c' ∈ lc <;>
      simp [h1, h2, h3]

lemma applyStylesRange_styles (ws : Sheet) (ri ci nr nc : Int) (s : String)
    (r c : Int) :
    (applyStylesRange ws ri ci nr nc s).styles (r, c)
      = if (ri ≤ r ∧ r < ri + nr) ∧ (ci ≤ c ∧ c < ci + nc) then some s
        else ws.styles (r, c) := by
  rw [applyStylesRange, foldl_rows_styles]
  simp [mem_rangeInt]

lemma apply_styles_ok (ws : Sheet) (ri ci nr nc : Int) (s : String)
    (h1 : 1 ≤ ri) (h2 : 1 ≤ ci) :
    apply_styles ws ri ci nr nc s = .ok (applyStylesRange ws ri ci nr nc s) := by
  rw [apply_styles, if_neg]
  omega

/-! ## Claims -/

/-- C2: for every `num_rows` N ≥ 1 and `num_cols` C ≥ 1,
`format_style_header_body` succeeds and assigns `header_style` to exactly
row 1, columns 1..C, `body_style` to exactly rows 2..N, columns 1..C, and
leaves every other cell's style unchanged. -/
theorem C2_header_body_exact (ws : Sheet) (N C : Int) (hN : 1 ≤ N) (hC : 1 ≤ C) :
    ∃ ws', format_style_header_body ws N C = .ok ws' ∧
      ∀ r c : Int, ws'.styles (r, c)
        = if r = 1 ∧ 1 ≤ c ∧ c ≤ C then some "header_style"
          else if 2 ≤ r ∧ r ≤ N ∧ 1 ≤ c ∧ c ≤ C then some "body_style"
          else ws.styles (r, c) := by
  refine ⟨applyStylesRange (applyStylesRange ws 1 1 1 C "header_style")
    2 1 (N - 1) C "body_style", ?_, ?_⟩
  · rw [format_style_header_body, if_neg (by omega)]
    rw [apply_styles_ok _ _ _ _ _ _ (by omega) (by omega), exceptBind_ok]
    rw [apply_styles_ok _ _ _ _ _ _ (by omega) (by omega), exceptBind_ok]
    rfl
  · intro r c
    rw [applyStylesRange_styles, applyStylesRange_styles]
    split_ifs <;> first | rfl | omega

/-- Witness for C2 at N = 2, C = 1 on a blank sheet. -/
theorem C2_header_body_exact_witness :
    (1 : Int) ≤ 2 ∧ (1 : Int) ≤ 1 ∧
    ∃ ws', format_style_header_body (blankSheet [] "A1:A1") 2 1 = .ok ws' ∧
      ∀ r c : Int, ws'.styles (r, c)
        = if r = 1 ∧ 1 ≤ c ∧ c ≤ 1 then some "header_style"
          else if 2 ≤ r ∧ r ≤ 2 ∧ 1 ≤ c ∧ c ≤ 1 then some "body_style"
          else (blankSheet [] "A1:A1").styles (r, c) :=
  ⟨by norm_num, by norm_num,
    C2_header_body_exact (blankSheet [] "A1:A1") 2 1 (by norm_num) (by norm_num)⟩

/-- True exactly on a raised (error) result of a formatter step. -/
def isErrorRes : Except PyErr Sheet → Bool
  | .error _ => true
  | .ok _ => false

/-- True exactly when a formatter step raised the application's
`ValidationError` class. -/
def isValidationErrorRes : Except PyErr Sheet → Bool
  | .error (.validationError _ _ _) => true
  | _ => false

/-- C5 counterexample: at `num_rows = 0`, `num_cols = 1` the guard of
`format_style_header_body` does raise, but the raised error is the Python
builtin `ValueError`, not the application's `ValidationError` class — the
claim names the wrong exception class. -/
theorem C5_counterexample :
    isErrorRes (format_style_header_body (blankSheet [] "A1:A1") 0 1) = true ∧
    isValidationErrorRes (format_style_header_body (blankSheet [] "A1:A1") 0 1) = false := by
  exact ⟨rfl, rfl⟩

/-- C5 (amended): structurally invalid pipeline inputs fail with the Python
builtin `ValueError` (not `shared.exceptions.ValidationError`):
`format_style_header_body` raises `ValueError` whenever `num_rows < 1` or
`num_cols < 1`, and `format_style_base_on_data_type` raises `ValueError`
whenever `num_rows` is negative and the column list is non-empty. -/
theorem C5_guards_raise_value_error :
    (∀ (ws : Sheet) (nr nc : Int), nr < 1 ∨ nc < 1 →
      ∃ m, format_style_header_body ws nr nc = .error (.valueError m)) ∧
    (∀ (ws : Sheet) (cols : List String) (nr : Int), cols ≠ [] → nr < 0 →
      ∃ m, format_style_base_on_data_type ws cols nr = .error (.valueError m)) := by
  constructor
  · intro ws nr nc h
    rw [format_style_header_body, if_pos h]
    exact ⟨_, rfl⟩
  · intro ws cols nr hcols hnr
    rw [format_style_base_on_data_type,
      if_neg (by simp [List.isEmpty_iff, hcols]), if_pos hnr]
    exact ⟨_, rfl⟩

/-- Witness for C5 (amended) at concrete inputs. -/
theorem C5_guards_raise_value_error_witness :
    ((0 : Int) < 1 ∨ (1 : Int) < 1) ∧
    (∃ m, format_style_header_body (blankSheet [] "A1:A1") 0 1
      = .error (.valueError m)) ∧
    (["a"] ≠ ([] : List String)) ∧ ((-1 : Int) < 0) ∧
    (∃ m, format_style_base_on_data_type (blankSheet [] "A1:A1") ["a"] (-1)
      = .error (.valueError m)) :=
  ⟨by norm_num,
   C5_guards_raise_value_error.1 (blankSheet [] "A1:A1") 0 1 (by norm_num),
   by simp, by norm_num,
   C5_guards_raise_value_error.2 (blankSheet [] "A1:A1") ["a"] (-1) (by simp) (by norm_num)⟩

lemma set_filter_mode_ok (cfg : VisualCatalog) (ws : Sheet) :
    ∃ s, set_filter_mode cfg ws = .ok s := by
  unfold set_filter_mode
  cases h : set_filter_mode_body cfg ws with
  | error e => exact ⟨ws, rfl⟩
  | ok s => exact ⟨s, rfl⟩

lemma auto_adjust_cols_ok (cfg : VisualCatalog) (ws : Sheet) :
    ∃ s, auto_adjust_cols cfg ws = .ok s := by
  unfold auto_adjust_cols
  cases h : auto_adjust_cols_body cfg ws with
  | error e => obtain ⟨e1, e2⟩ := e; exact ⟨e2, rfl⟩
  | ok s => exact ⟨s, rfl⟩

lemma set_freeze_panes_style_ok (cfg : VisualCatalog) (ws : Sheet) :
    ∃ s, set_freeze_panes_style cfg ws = .ok s := by
  unfold set_freeze_panes_style
  cases h : set_freeze_panes_style_body cfg ws with
  | error e => exact ⟨ws, rfl⟩
  | ok s => exact ⟨s, rfl⟩

/-- C3: for every sheet and every configuration, each of the three cosmetic
steps — `set_filter_mode`, `auto_adjust_cols`, `set_freeze_panes_style` —
never raises (its `try/except` catches and logs any internal failure, such
as a malformed freeze-cell reference or an empty column tuple), and hence
running the three in pipeline order always reaches the end. -/
theorem C3_cosmetic_steps_never_raise (cfg : VisualCatalog) (ws : Sheet) :
    (∃ s, set_filter_mode cfg ws = .ok s) ∧
    (∃ s, auto_adjust_cols cfg ws = .ok s) ∧
    (∃ s, set_freeze_panes_style cfg ws = .ok s) ∧
    (∃ s, (do
        let a ← set_filter_mode cfg ws
        let b ← auto_adjust_cols cfg a
        set_freeze_panes_style cfg b) = Except.ok s) := by
  obtain ⟨s1, h1⟩ := set_filter_mode_ok cfg ws
  refine ⟨⟨s1, h1⟩, auto_adjust_cols_ok cfg ws, set_freeze_panes_style_ok cfg ws, ?_⟩
  obtain ⟨s2, h2⟩ := auto_adjust_cols_ok cfg s1
  obtain ⟨s3, h3⟩ := set_freeze_panes_style_ok cfg s2
  exact ⟨s3, by rw [h1, exceptBind_ok, h2, exceptBind_ok, h3]⟩

lemma dictGet_mem {α : Type} {l : List (String × α)} {k : String} {v : α}
    (h : dictGet l k = some v) : v ∈ l.map Prod.snd := by
  unfold dictGet at h
  obtain ⟨p, hp, rfl⟩ := Option.map_eq_some'.mp h
  exact List.mem_map_of_mem _ (List.mem_of_find?_eq_some hp)

lemma resolve_mem_styleNames (col : String) :
    resolve_style_name col ∈
      ["date_style", "date_time_style", "int_style", "float_style",
       "currency_style", "percentage_style", "default_style"] := by
  unfold resolve_style_name dictGetD
  cases h : dictGet DECLARE_DATA_TYPE_CONFIG col with
  | none => decide
  | some v =>
    have hv := dictGet_mem h
    fin_cases hv <;> decide

/-- C1: for every column name string, the two-stage resolution of
`format_style_base_on_data_type` (declared-type lookup with fallback
`default_data_type`, then style-name lookup with fallback `default_style`)
returns a style name that is a key of one of the two style catalogs, and
that name is among the names of the style definitions produced by
`build_bulk_named_style`. -/
theorem C1_resolution_always_registered (col : String) :
    resolve_style_name col ∈
      (VISUAL_STYLE_NAME_CONFIG.map Prod.fst ++
       DATA_TYPE_STYLE_NAME_CONFIG.map Prod.fst) ∧
    resolve_style_name col ∈
      ((build_bulk_named_style VISUAL_STYLE_NAME_CONFIG
          DATA_TYPE_STYLE_NAME_CONFIG).filterMap id).map NamedStyle.name := by
  have h := resolve_mem_styleNames col
  simp only [List.mem_cons, List.not_mem_nil, or_false] at h
  rcases h with h | h | h | h | h | h | h <;> rw [h] <;> exact ⟨by decide, by decide⟩

lemma listIndex_lt_length {x : String} {l : List String} (h : x ∈ l) :
    listIndex x l < l.length := by
  induction l with
  | nil => simp at h
  | cons y ys ih =>
    rw [listIndex]
    by_cases hy : y = x
    · simp [hy]
    · rcases List.mem_cons.mp h with h1 | h1
      · exact absurd h1.symm hy
      · simpa [hy] using ih h1

lemma getD_listIndex {x : String} {l : List String} (h : x ∈ l) :
    l.getD (listIndex x l) "" = x := by
  induction l with
  | nil => simp at h
  | cons y ys ih =>
    rw [listIndex]
    by_cases hy : y = x
    · simp [hy]
    · rcases List.mem_cons.mp h with h1 | h1
      · exact absurd h1.symm hy
      · simpa [hy] using ih h1

lemma listIndex_getD_of_nodup {l : List String} (hnd : l.Nodup) :
    ∀ i : Nat, i < l.length → listIndex (l.getD i "") l = i := by
  induction l with
  | nil => intro i hi; simp at hi
  | cons y ys ih =>
    intro i hi
    match i with
    | 0 => simp [listIndex]
    | Nat.succ j =>
      rw [List.getD_cons_succ, listIndex]
      have hj : j < ys.length := by simpa using hi
      have hmem : ys.getD j "" ∈ ys := by
        rw [List.getD_eq_get _ _ hj]; exact List.get_mem ys _ _
      have hy : y ≠ ys.getD j "" := by
        intro hcontra
        exact (List.nodup_cons.mp hnd).1 (hcontra ▸ hmem)
      rw [if_neg hy, ih (List.nodup_cons.mp hnd).2 j hj]

lemma applyStylesRange_one_col (ws : Sheet) (k nr : Int) (s : String)
    (r c : Int) :
    (applyStylesRange ws 2 k nr 1 s).styles (r, c)
      = if (2 ≤ r ∧ r < 2 + nr) ∧ c = k then some s else ws.styles (r, c) := by
  rw [applyStylesRange_styles]
  split_ifs <;> first | rfl | omega

lemma typeFold_ok (cols : List String) (nr : Int) :
    ∀ (l : List String) (ws : Sheet),
      (l.foldlM (fun acc col =>
          apply_styles acc 2 ((listIndex col cols : Int) + 1)
            nr 1 (resolve_style_name col)) ws)
        = Except.ok (l.foldl (fun acc col =>
            applyStylesRange acc 2 ((listIndex col cols : Int) + 1)
              nr 1 (resolve_style_name col)) ws) := by
  intro l
  induction l with
  | nil => intro ws; rfl
  | cons col rest ih =>
    intro ws
    rw [List.foldlM_cons,
      apply_styles_ok _ _ _ _ _ _ (by omega) (by omega), exceptBind_ok,
      ih, List.foldl_cons]

lemma typeFold_styles (cols : List String) (nr : Int) :
    ∀ (l : List String), (∀ x ∈ l, x ∈ cols) → ∀ (ws : Sheet) (r c : Int),
      ((l.foldl (fun acc col =>
          applyStylesRange acc 2 ((listIndex col cols : Int) + 1)
            nr 1 (resolve_style_name col)) ws).styles (r, c))
        = if (2 ≤ r ∧ r < 2 + nr) ∧
              (∃ col ∈ l, (listIndex col cols : Int) + 1 = c)
          then some (resolve_style_name (cols.getD (c - 1).toNat ""))
          else ws.styles (r, c) := by
  intro l
  induction l with
  | nil => intro _ ws r c; simp
  | cons col rest ih =>
    intro hmem ws r c
    rw [List.foldl_cons, ih (fun x hx => hmem x (List.mem_cons_of_mem col hx)),
      applyStylesRange_one_col]
    have hcolmem : col ∈ cols := hmem col (List.mem_cons_self col rest)
    by_cases hrow : 2 ≤ r ∧ r < 2 + nr
    · by_cases hex : ∃ c2 ∈ rest, (listIndex c2 cols : Int) + 1 = c
      · have hA : (2 ≤ r ∧ r < 2 + nr) ∧ ∃ c2 ∈ rest, (listIndex c2 cols : Int) + 1 = c :=
          ⟨hrow, hex⟩
        have hC : (2 ≤ r ∧ r < 2 + nr) ∧ ∃ c2 ∈ col :: rest, (listIndex c2 cols : Int) + 1 = c := by
          obtain ⟨c2, hc2, he⟩ := hex
          exact ⟨hrow, c2, List.mem_cons_of_mem col hc2, he⟩
        rw [if_pos hA, if_pos hC]
      · by_cases hc : c = (listIndex col cols : Int) + 1
        · have hA : ¬ ((2 ≤ r ∧ r < 2 + nr) ∧ ∃ c2 ∈ rest, (listIndex c2 cols : Int) + 1 = c) := by
            rintro ⟨-, hx⟩; exact hex hx
          have hB : (2 ≤ r ∧ r < 2 + nr) ∧ c = (listIndex col cols : Int) + 1 := ⟨hrow, hc⟩
          have hC : (2 ≤ r ∧ r < 2 + nr) ∧ ∃ c2 ∈ col :: rest, (listIndex c2 cols : Int) + 1 = c :=
            ⟨hrow, col, List.mem_cons_self col rest, hc.symm⟩
          rw [if_pos hC, if_neg hA, if_pos hB]
          have htn : (c - 1).toNat = listIndex col cols := by omega
          rw [htn, getD_listIndex hcolmem]
        · have hA : ¬ ((2 ≤ r ∧ r < 2 + nr) ∧ ∃ c2 ∈ rest, (listIndex c2 cols : Int) + 1 = c) := by
            rintro ⟨-, hx⟩; exact hex hx
          have hB : ¬ ((2 ≤ r ∧ r < 2 + nr) ∧ c = (listIndex col cols : Int) + 1) := by
            rintro ⟨-, hx⟩; exact hc hx
          have hC : ¬ ((2 ≤ r ∧ r < 2 + nr) ∧ ∃ c2 ∈ col :: rest, (listIndex c2 cols : Int) + 1 = c) := by
            rintro ⟨-, c2, hc2, he⟩
            rcases List.mem_cons.mp hc2 with rfl | hm
            · exact hc he.symm
            · exact hex ⟨c2, hm, he⟩
          rw [if_neg hA, if_neg hB, if_neg hC]
    · have hA : ¬ ((2 ≤ r ∧ r < 2 + nr) ∧ ∃ c2 ∈ rest, (listIndex c2 cols : Int) + 1 = c) :=
        fun h => hrow h.1
      have hB : ¬ ((2 ≤ r ∧ r < 2 + nr) ∧ c = (listIndex col cols : Int) + 1) :=
        fun h => hrow h.1
      have hC : ¬ ((2 ≤ r ∧ r < 2 + nr) ∧ ∃ c2 ∈ col :: rest, (listIndex c2 cols : Int) + 1 = c) :=
        fun h => hrow h.1
      rw [if_neg hA, if_neg hB, if_neg hC]

/-- C10: `format_style_base_on_data_type` styles, for each occurrence of a
column name, the data rows of the column at the 1-indexed position of the
name's FIRST occurrence (`list.index`), so positions of later duplicate
occurrences keep their previous style; when all names are distinct, the
data cells of position i+1 receive the style resolved for the i-th name. -/
theorem C10_first_occurrence_position (ws : Sheet) (cols : List String) (nr : Int)
    (hcols : cols ≠ []) (hnr : 0 ≤ nr) :
    ∃ ws', format_style_base_on_data_type ws cols nr = .ok ws' ∧
      (∀ r c : Int, ws'.styles (r, c)
        = if (2 ≤ r ∧ r < 2 + nr) ∧
              (∃ col ∈ cols, (listIndex col cols : Int) + 1 = c)
          then some (resolve_style_name (cols.getD (c - 1).toNat ""))
          else ws.styles (r, c)) ∧
      (cols.Nodup → ∀ i : Nat, i < cols.length → ∀ r : Int, 2 ≤ r → r < 2 + nr →
        ws'.styles (r, (i : Int) + 1) = some (resolve_style_name (cols.getD i ""))) := by
  refine ⟨cols.foldl (fun acc col =>
      applyStylesRange acc 2 ((listIndex col cols : Int) + 1)
        nr 1 (resolve_style_name col)) ws, ?_, ?_, ?_⟩
  · rw [format_style_base_on_data_type, if_neg (by simp [List.isEmpty_iff, hcols]),
      if_neg (by omega), typeFold_ok]
  · intro r c
    exact typeFold_styles cols nr cols (fun x hx => hx) ws r c
  · intro hnd i hi r hr1 hr2
    rw [typeFold_styles cols nr cols (fun x hx => hx) ws r ((i : Int) + 1)]
    have hmem : cols.getD i "" ∈ cols := by
      rw [List.getD_eq_get _ _ hi]; exact List.get_mem cols _ _
    have hidx : listIndex (cols.getD i "") cols = i := listIndex_getD_of_nodup hnd i hi
    have hcond : (2 ≤ r ∧ r < 2 + nr) ∧
        ∃ col ∈ cols, (listIndex col cols : Int) + 1 = (i : Int) + 1 :=
      ⟨⟨hr1, hr2⟩, cols.getD i "", hmem, by rw [hidx]⟩
    rw [if_pos hcond]
    have htn : (((i : Int) + 1) - 1).toNat = i := by omega
    rw [htn]

/-- Witness for C10 on the duplicated column list ["x", "x"]. -/
theorem C10_first_occurrence_position_witness :
    (["x", "x"] ≠ ([] : List String)) ∧ ((0 : Int) ≤ 1) ∧
    (∃ ws', format_style_base_on_data_type (blankSheet [] "A1:A1") ["x", "x"] 1 = .ok ws' ∧
      (∀ r c : Int, ws'.styles (r, c)
        = if (2 ≤ r ∧ r < 2 + 1) ∧
              (∃ col ∈ ["x", "x"], (listIndex col ["x", "x"] : Int) + 1 = c)
          then some (resolve_style_name ((["x", "x"] : List String).getD (c - 1).toNat ""))
          else (blankSheet [] "A1:A1").styles (r, c)) ∧
      ((["x", "x"] : List String).Nodup →
        ∀ i : Nat, i < (["x", "x"] : List String).length → ∀ r : Int, 2 ≤ r → r < 2 + 1 →
        ws'.styles (r, (i : Int) + 1)
          = some (resolve_style_name ((["x", "x"] : List String).getD i "")))) :=
  ⟨by simp, by norm_num,
   C10_first_occurrence_position (blankSheet [] "A1:A1") ["x", "x"] 1 (by simp) (by norm_num)⟩

/-- C9: for a table with zero data rows and at least one column, the two
structural steps succeed: `format_style_header_body` with `num_rows = 0 + 1`
styles exactly row 1 with `header_style` and no body cells, and
`format_style_base_on_data_type` with `num_rows = 0` styles no cells; and
the whole `run_pipeline` (which passes exactly these values) succeeds for
every configuration. -/
theorem C9_zero_data_rows (ws : Sheet) (cols : List String) (hcols : cols ≠ []) :
    ∃ ws1 ws2,
      format_style_header_body ws ((0 : Int) + 1) (cols.length : Int) = .ok ws1 ∧
      format_style_base_on_data_type ws1 cols 0 = .ok ws2 ∧
      (∀ r c : Int, ws2.styles (r, c)
        = if r = 1 ∧ 1 ≤ c ∧ c ≤ (cols.length : Int) then some "header_style"
          else ws.styles (r, c)) ∧
      (∀ cfg : VisualCatalog, ∃ wsf, run_pipeline cfg ws ⟨cols, 0⟩ = .ok wsf) := by
  have hlen : 1 ≤ (cols.length : Int) := by
    have := List.length_pos.mpr hcols
    omega
  have h1 : format_style_header_body ws ((0 : Int) + 1) (cols.length : Int)
      = .ok (applyStylesRange (applyStylesRange ws 1 1 1 (cols.length : Int) "header_style")
          2 1 (((0 : Int) + 1) - 1) (cols.length : Int) "body_style") := by
    rw [format_style_header_body, if_neg (by omega)]
    rw [apply_styles_ok _ _ _ _ _ _ (by omega) (by omega), exceptBind_ok]
    rw [apply_styles_ok _ _ _ _ _ _ (by omega) (by omega), exceptBind_ok]
    rfl
  set ws1 := applyStylesRange (applyStylesRange ws 1 1 1 (cols.length : Int) "header_style")
      2 1 (((0 : Int) + 1) - 1) (cols.length : Int) "body_style" with hws1
  have h2 : format_style_base_on_data_type ws1 cols 0
      = .ok (cols.foldl (fun acc col =>
          applyStylesRange acc 2 ((listIndex col cols : Int) + 1)
            0 1 (resolve_style_name col)) ws1) := by
    rw [format_style_base_on_data_type, if_neg (by simp [List.isEmpty_iff, hcols]),
      if_neg (by omega), typeFold_ok]
  set ws2 := cols.foldl (fun acc col =>
      applyStylesRange acc 2 ((listIndex col cols : Int) + 1)
        0 1 (resolve_style_name col)) ws1 with hws2
  have hstyles : ∀ r c : Int, ws2.styles (r, c)
      = if r = 1 ∧ 1 ≤ c ∧ c ≤ (cols.length : Int) then some "header_style"
        else ws.styles (r, c) := by
    intro r c
    rw [hws2, typeFold_styles cols 0 cols (fun x hx => hx) ws1 r c,
      if_neg (fun h => by omega)]
    rw [hws1, applyStylesRange_styles, applyStylesRange_styles]
    split_ifs <;> first | rfl | omega
  refine ⟨ws1, ws2, h1, h2, hstyles, ?_⟩
  intro cfg
  obtain ⟨s3, h3⟩ := set_filter_mode_ok cfg ws2
  obtain ⟨s4, h4⟩ := auto_adjust_cols_ok cfg s3
  obtain ⟨s5, h5⟩ := set_freeze_panes_style_ok cfg s4
  refine ⟨s5, ?_⟩
  have hrp : run_pipeline cfg ws ⟨cols, 0⟩ =
      (format_style_header_body ws ((0 : Int) + 1) (cols.length : Int) >>= fun a =>
        format_style_base_on_data_type a cols 0 >>= fun b =>
        set_filter_mode cfg b >>= fun c2 =>
        auto_adjust_cols cfg c2 >>= fun d =>
        set_freeze_panes_style cfg d >>= fun e => pure e) := rfl
  rw [hrp, h1, exceptBind_ok, h2, exceptBind_ok, h3, exceptBind_ok,
    h4, exceptBind_ok, h5, exceptBind_ok]
  rfl

/-- Witness for C9 on the single-column list ["a"]. -/
theorem C9_zero_data_rows_witness :
    (["a"] ≠ ([] : List String)) ∧
    (∃ ws1 ws2,
      format_style_header_body (blankSheet [] "A1:A1") ((0 : Int) + 1)
          ((["a"] : List String).length : Int) = .ok ws1 ∧
      format_style_base_on_data_type ws1 ["a"] 0 = .ok ws2 ∧
      (∀ r c : Int, ws2.styles (r, c)
        = if r = 1 ∧ 1 ≤ c ∧ c ≤ ((["a"] : List String).length : Int)
          then some "header_style"
          else (blankSheet [] "A1:A1").styles (r, c)) ∧
      (∀ cfg : VisualCatalog, ∃ wsf,
        run_pipeline cfg (blankSheet [] "A1:A1") ⟨["a"], 0⟩ = .ok wsf)) :=
  ⟨by simp, C9_zero_data_rows (blankSheet [] "A1:A1") ["a"] (by simp)⟩

lemma sortedStrList_sorted (l : List String) :
    (sortedStrList l).Sorted (fun a b => a ≤ b) := by
  have htrans : ∀ (a b c : String),
      (decide (a ≤ b)) = true → (decide (b ≤ c)) = true → (decide (a ≤ c)) = true := by
    intro a b c hab hbc
    simp only [decide_eq_true_eq] at hab hbc ⊢
    exact le_trans hab hbc
  have htotal : ∀ (a b : String), ((decide (a ≤ b)) || (decide (b ≤ a))) = true := by
    intro a b
    simp only [Bool.or_eq_true, decide_eq_true_eq]
    exact le_total a b
  have h := List.sorted_mergeSort htrans htotal l
  exact h.imp (fun hab => by simpa using hab)

lemma sortedStrList_nodup {l : List String} (h : l.Nodup) :
    (sortedStrList l).Nodup :=
  ((List.mergeSort_perm l _).symm.nodup h)

lemma mem_sortedStrList {l : List String} {x : String} :
    x ∈ sortedStrList l ↔ x ∈ l :=
  List.mem_mergeSort

/-- C4: for every table and non-empty required-column list, `Reader.read`
(modelled after the file has been found and parsed) succeeds iff every
required column is among the table's columns; on failure it raises
`ValidationError` with `field = "columns"` reporting exactly the set
`required − columns` sorted, together with the available columns, sorted. -/
theorem C4_read_required_columns (t : Table) (required : List String)
    (hreq : required ≠ []) :
    ((∃ t', reader_read t required = .ok t') ↔ ∀ c ∈ required, c ∈ t.columns) ∧
    ((¬ ∀ c ∈ required, c ∈ t.columns) →
      ∃ miss avail, reader_read t required = .error (.validationError miss avail "columns")) ∧
    (∀ miss avail fld,
      reader_read t required = .error (.validationError miss avail fld) →
      fld = "columns" ∧
      miss.Sorted (fun a b => a ≤ b) ∧ miss.Nodup ∧
      (∀ c, c ∈ miss ↔ c ∈ required ∧ c ∉ t.columns) ∧
      avail.Sorted (fun a b => a ≤ b) ∧ avail.Nodup ∧
      (∀ c, c ∈ avail ↔ c ∈ t.columns)) := by
  have hne : ¬ (required.isEmpty = true) := by simp [List.isEmpty_iff, hreq]
  by_cases hsub : ∀ c ∈ required, c ∈ t.columns
  · have hm : (required.dedup.filter (fun c => decide (c ∉ t.columns))) = [] := by
      rw [List.filter_eq_nil]
      intro a ha
      simp only [decide_eq_true_eq, Decidable.not_not]
      exact hsub a (List.mem_dedup.mp ha)
    have hval : validate_columns required t.columns = .ok () := by
      rw [validate_columns, if_neg hne, hm]
      rfl
    have hok : reader_read t required = .ok t := by
      rw [reader_read, hval]
    refine ⟨⟨fun _ => hsub, fun _ => ⟨t, hok⟩⟩, fun h => absurd hsub h, ?_⟩
    intro miss avail fld h
    rw [hok] at h
    simp at h
  · have hc0 : ∃ c0, c0 ∈ required ∧ c0 ∉ t.columns := by
      push_neg at hsub
      exact hsub
    obtain ⟨c0, hc0m, hc0n⟩ := hc0
    have hm : ¬ ((required.dedup.filter (fun c => decide (c ∉ t.columns))).isEmpty = true) := by
      simp only [List.isEmpty_iff]
      intro hnil
      have : c0 ∈ required.dedup.filter (fun c => decide (c ∉ t.columns)) := by
        rw [List.mem_filter]
        exact ⟨List.mem_dedup.mpr hc0m, by simpa using hc0n⟩
      rw [hnil] at this
      simp at this
    have hval : validate_columns required t.columns
        = .error (.validationError
            (sortedStrList (required.dedup.filter (fun c => decide (c ∉ t.columns))))
            (sortedStrList t.columns.dedup) "columns") := by
      rw [validate_columns, if_neg hne, if_neg hm]
    have herr : reader_read t required
        = .error (.validationError
            (sortedStrList (required.dedup.filter (fun c => decide (c ∉ t.columns))))
            (sortedStrList t.columns.dedup) "columns") := by
      rw [reader_read, hval]
    refine ⟨⟨?_, fun h => absurd h hsub⟩, fun _ => ⟨_, _, herr⟩, ?_⟩
    · rintro ⟨t', ht'⟩
      rw [herr] at ht'
      simp at ht'
    · intro miss avail fld h
      rw [herr] at h
      simp only [Except.error.injEq, PyErr.validationError.injEq] at h
      obtain ⟨h1, h2, h3⟩ := h
      subst h1
      subst h2
      subst h3
      refine ⟨rfl, sortedStrList_sorted _,
        sortedStrList_nodup ((required.nodup_dedup).filter _), ?_,
        sortedStrList_sorted _, sortedStrList_nodup (t.columns.nodup_dedup), ?_⟩
      · intro c
        rw [mem_sortedStrList, List.mem_filter]
        simp [List.mem_dedup]
      · intro c
        rw [mem_sortedStrList]
        exact List.mem_dedup

/-- Witness for C4 with required = ["b", "a"] against a table with the
single column "a". -/
theorem C4_read_required_columns_witness :
    ((["b", "a"] : List String) ≠ []) ∧
    (((∃ t', reader_read ⟨["a"]⟩ ["b", "a"] = .ok t') ↔
        ∀ c ∈ (["b", "a"] : List String), c ∈ (Table.mk ["a"]).columns) ∧
    ((¬ ∀ c ∈ (["b", "a"] : List String), c ∈ (Table.mk ["a"]).columns) →
      ∃ miss avail,
        reader_read ⟨["a"]⟩ ["b", "a"] = .error (.validationError miss avail "columns")) ∧
    (∀ miss avail fld,
      reader_read ⟨["a"]⟩ ["b", "a"] = .error (.validationError miss avail fld) →
      fld = "columns" ∧
      miss.Sorted (fun a b => a ≤ b) ∧ miss.Nodup ∧
      (∀ c, c ∈ miss ↔ c ∈ (["b", "a"] : List String) ∧ c ∉ (Table.mk ["a"]).columns) ∧
      avail.Sorted (fun a b => a ≤ b) ∧ avail.Nodup ∧
      (∀ c, c ∈ avail ↔ c ∈ (Table.mk ["a"]).columns))) :=
  ⟨by simp, C4_read_required_columns ⟨["a"]⟩ ["b", "a"] (by simp)⟩

lemma max?_replicate_zero : ∀ n : Nat, (List.replicate (n + 1) (0 : Nat)).max? = some 0 := by
  intro n
  induction n with
  | zero => rfl
  | succ m ih =>
    rw [List.replicate_succ, List.max?_cons, ih]
    rfl

lemma maxContentLen_all_empty {col : List (Option String)} (hne : col ≠ [])
    (h : ∀ cell ∈ col, (cell.getD "").length = 0) : maxContentLen col = 0 := by
  have hmap : col.map cellLen = List.replicate col.length 0 := by
    rw [List.eq_replicate]
    refine ⟨by simp, ?_⟩
    intro b hb
    obtain ⟨cell, hcell, rfl⟩ := List.mem_map.mp hb
    exact h cell hcell
  obtain ⟨c, cs, rfl⟩ : ∃ c cs, col = c :: cs := by
    cases col with
    | nil => exact absurd rfl hne
    | cons c cs => exact ⟨c, cs, rfl⟩
  rw [maxContentLen, hmap]
  simp only [List.length_cons]
  rw [max?_replicate_zero]
  rfl

lemma adjustLoop_widths (W : Int) :
    ∀ (cl : List (List (Option String))) (idx : Int) (ws : Sheet),
      (∀ col ∈ cl, col ≠ []) →
      ∃ ws', adjustLoop W cl idx ws = .ok ws' ∧
        (∀ j : Nat, j < cl.length →
          ws'.widths (idx + (j : Int))
            = some (min ((maxContentLen (cl.getD j []) : Int) + 8) W)) ∧
        (∀ i : Int, (∀ j : Nat, j < cl.length → i ≠ idx + (j : Int)) →
          ws'.widths i = ws.widths i) := by
  intro cl
  induction cl with
  | nil =>
    intro idx ws _
    refine ⟨ws, rfl, ?_, fun i _ => rfl⟩
    intro j hj
    simp at hj
  | cons col rest ih =>
    intro idx ws hne
    have hcol : col ≠ [] := hne col (List.mem_cons_self col rest)
    obtain ⟨v, vs, rfl⟩ : ∃ v vs, col = v :: vs := by
      cases col with
      | nil => exact absurd rfl hcol
      | cons v vs => exact ⟨v, vs, rfl⟩
    obtain ⟨ws', hrun, hw, hpres⟩ := ih (idx + 1)
      { ws with widths := fun i =>
          if i = idx then some (min ((maxContentLen (v :: vs) : Int) + 8) W)
          else ws.widths i }
      (fun c hc => hne c (List.mem_cons_of_mem _ hc))
    refine ⟨ws', ?_, ?_, ?_⟩
    · show adjustLoop W rest (idx + 1)
        { ws with widths := fun i =>
            if i = idx then some (min ((maxContentLen (v :: vs) : Int) + 8) W)
            else ws.widths i } = .ok ws'
      exact hrun
    · intro j hj
      cases j with
      | zero =>
        have hpres0 : ws'.widths idx
            = (if idx = idx then some (min ((maxContentLen (v :: vs) : Int) + 8) W)
               else ws.widths idx) := by
          apply hpres
          intro j' hj'
          omega
        rw [show idx + ((0 : Nat) : Int) = idx by simp, hpres0, if_pos rfl]
        rfl
      | succ m =>
        have hcast : idx + ((m + 1 : Nat) : Int) = (idx + 1) + (m : Int) := by
          push_cast
          omega
        have hm : m < rest.length := by simpa using hj
        rw [hcast, hw m hm]
        rfl
    · intro i hi
      have h1 : ws'.widths i
          = (if i = idx then some (min ((maxContentLen (v :: vs) : Int) + 8) W)
             else ws.widths i) := by
        apply hpres
        intro j' hj'
        have hx := hi (j' + 1) (by simpa using Nat.succ_lt_succ hj')
        intro hcontra
        apply hx
        push_cast at hcontra ⊢
        omega
      have h2 : i ≠ idx := by
        intro hcontra
        apply hi 0 (by simp)
        simp [hcontra]
      rw [h1, if_neg h2]

/-- C6 (amended): when auto-adjust is enabled with maximum width W, every
used-range column (with at least one cell) whose longest stringified cell
value has length L gets width `min(L + 8, W)`; consequently a column whose
cell values are all empty/absent (L = 0) gets width `min(0 + 8, W)` — not
`min(5 + 8, W)`: the `default=5` of the source only applies to a column
with no cells at all, where `col[0].column_letter` then raises before any
width is assigned. -/
theorem C6_auto_width_formula (cfg : VisualCatalog) (ws : Sheet) (e : VEntry) (W : Int)
    (hcfg : (dictGet cfg "auto_adjust_style").bind id = some e)
    (hon : e.auto_adjust_width = some true)
    (hW : e.max_column_width = some W)
    (hcols : ∀ col ∈ ws.columns, col ≠ []) :
    ∃ ws', auto_adjust_cols cfg ws = .ok ws' ∧
      (∀ j : Nat, j < ws.columns.length →
        ws'.widths (1 + (j : Int))
          = some (min ((maxContentLen (ws.columns.getD j []) : Int) + 8) W)) ∧
      (∀ j : Nat, j < ws.columns.length →
        (∀ cell ∈ ws.columns.getD j [], (cell.getD "").length = 0) →
        ws'.widths (1 + (j : Int)) = some (min ((0 : Int) + 8) W)) := by
  obtain ⟨ws', hrun, hw, hpres⟩ := adjustLoop_widths W ws.columns 1 ws hcols
  have hbody : auto_adjust_cols_body cfg ws = adjustLoop W ws.columns 1 ws := by
    rw [auto_adjust_cols_body, hcfg]
    simp only [Option.some_bind, hon, hW, Option.getD_some]
    rw [if_neg (by simp)]
  have hall : auto_adjust_cols cfg ws = .ok ws' := by
    rw [auto_adjust_cols, hbody, hrun]
  refine ⟨ws', hall, hw, ?_⟩
  intro j hj hempty
  have hmem : ws.columns.getD j [] ∈ ws.columns := by
    rw [List.getD_eq_get _ _ hj]
    exact List.get_mem ws.columns _ _
  have hcol : ws.columns.getD j [] ≠ [] := hcols _ hmem
  rw [hw j hj, maxContentLen_all_empty hcol hempty]
  norm_num

/-- Witness for C6 on the real configuration (W = 60) and a sheet with one
column containing the single value "ab" (L = 2, width 10). -/
theorem C6_auto_width_formula_witness :
    ((dictGet VISUAL_STYLE_NAME_CONFIG "auto_adjust_style").bind id
      = some { auto_adjust_width := some true, max_column_width := some 60,
               auto_adjust_height := some false, max_column_height := some 15 }) ∧
    (VEntry.auto_adjust_width
        { auto_adjust_width := some true, max_column_width := some 60,
          auto_adjust_height := some false, max_column_height := some 15 }
      = some true) ∧
    (VEntry.max_column_width
        { auto_adjust_width := some true, max_column_width := some 60,
          auto_adjust_height := some false, max_column_height := some 15 }
      = some 60) ∧
    (∀ col ∈ (blankSheet [[some "ab"]] "A1:A1").columns, col ≠ []) ∧
    (∃ ws', auto_adjust_cols VISUAL_STYLE_NAME_CONFIG (blankSheet [[some "ab"]] "A1:A1")
        = .ok ws' ∧
      (∀ j : Nat, j < (blankSheet [[some "ab"]] "A1:A1").columns.length →
        ws'.widths (1 + (j : Int))
          = some (min ((maxContentLen ((blankSheet [[some "ab"]] "A1:A1").columns.getD j []) : Int) + 8) 60)) ∧
      (∀ j : Nat, j < (blankSheet [[some "ab"]] "A1:A1").columns.length →
        (∀ cell ∈ (blankSheet [[some "ab"]] "A1:A1").columns.getD j [],
          (cell.getD "").length = 0) →
        ws'.widths (1 + (j : Int)) = some (min ((0 : Int) + 8) 60))) :=
  ⟨rfl, rfl, rfl, by decide,
   C6_auto_width_formula VISUAL_STYLE_NAME_CONFIG (blankSheet [[some "ab"]] "A1:A1")
     { auto_adjust_width := some true, max_column_width := some 60,
       auto_adjust_height := some false, max_column_height := some 15 }
     60 rfl rfl rfl (by decide)⟩

/-- The width the formatter assigned to column `i`, if the step succeeded. -/
def resWidth (r : Except PyErr Sheet) (i : Int) : Option Int :=
  match r with
  | .ok s => s.widths i
  | .error _ => none

/-- C6 counterexample: under the real configuration (max width 60), a
one-column sheet whose only cell is empty gets width 8 = min(0+8, 60), while
the claim predicts min(5+8, 60) = 13. -/
theorem C6_counterexample :
    resWidth (auto_adjust_cols VISUAL_STYLE_NAME_CONFIG
      (blankSheet [[none]] "A1:A1")) 1 = some 8 ∧
    ¬ (min ((5 : Int) + 8) 60 = 8) := by
  exact ⟨rfl, by decide⟩

lemma foldl_append_singleton {α β : Type} (f : α → β) (l : List α) :
    ∀ acc : List β, l.foldl (fun res p => res ++ [f p]) acc = acc ++ l.map f := by
  induction l with
  | nil => intro acc; simp
  | cons p ps ih =>
    intro acc
    rw [List.foldl_cons, ih, List.map_cons]
    simp

lemma build_bulk_eq (v : VisualCatalog) (d : DataTypeCatalog) :
    build_bulk_named_style v d
      = v.map (fun p => build_named_style v d p.fst "VISUAL_STYLE_NAME_CONFIG")
        ++ d.map (fun p => build_named_style v d p.fst "DATA_TYPE_STYLE_NAME_CONFIG") := by
  rw [build_bulk_named_style]
  rw [foldl_append_singleton, foldl_append_singleton]
  simp

/-- C7 (amended): a catalog key whose entry is absent or falsy yields no
StyleDefinition — `_build_named_style` returns `None` (after logging a
warning) — but that `None` is APPENDED to the returned sequence rather than
omitted from it: the result has one element per key of each catalog (the
build does continue for all remaining keys, each truthy key yielding a
definition named after it). -/
theorem C7_falsy_entry_appends_none (v : VisualCatalog) (d : DataTypeCatalog) :
    (build_bulk_named_style v d).length = v.length + d.length ∧
    (∀ k, (dictGet v k).bind id = none →
      build_named_style v d k "VISUAL_STYLE_NAME_CONFIG" = none) ∧
    (∀ k e, (dictGet v k).bind id = some e →
      ∃ ns, build_named_style v d k "VISUAL_STYLE_NAME_CONFIG" = some ns ∧ ns.name = k) ∧
    (∀ k, (dictGet d k).bind id = none →
      build_named_style v d k "DATA_TYPE_STYLE_NAME_CONFIG" = none) ∧
    (∀ k e, (dictGet d k).bind id = some e →
      ∃ ns, build_named_style v d k "DATA_TYPE_STYLE_NAME_CONFIG" = some ns ∧ ns.name = k) ∧
    build_bulk_named_style v d
      = v.map (fun p => build_named_style v d p.fst "VISUAL_STYLE_NAME_CONFIG")
        ++ d.map (fun p => build_named_style v d p.fst "DATA_TYPE_STYLE_NAME_CONFIG") := by
  refine ⟨?_, ?_, ?_, ?_, ?_, build_bulk_eq v d⟩
  · rw [build_bulk_eq]
    simp
  · intro k h
    rw [build_named_style, if_pos rfl, h]
  · intro k e h
    rw [build_named_style, if_pos rfl, h]
    refine ⟨_, rfl, ?_⟩
    dsimp only
    split_ifs <;> rfl
  · intro k h
    rw [build_named_style, if_neg (by decide), if_pos rfl, h]
  · intro k e h
    rw [build_named_style, if_neg (by decide), if_pos rfl, h]
    dsimp only
    split_ifs <;> exact ⟨_, rfl, rfl⟩

/-- Witness for C7: a catalog whose single key has a falsy entry yields
`None`, still appended (result length 1). -/
theorem C7_falsy_entry_appends_none_witness :
    ((dictGet [("ghost_style", (none : Option VEntry))] "ghost_style").bind id = none) ∧
    build_named_style [("ghost_style", none)] [] "ghost_style" "VISUAL_STYLE_NAME_CONFIG"
      = none ∧
    (build_bulk_named_style [("ghost_style", none)] []).length
      = ([("ghost_style", (none : Option VEntry))] : VisualCatalog).length
        + ([] : DataTypeCatalog).length :=
  ⟨rfl,
   (C7_falsy_entry_appends_none [("ghost_style", none)] []).2.1 "ghost_style" rfl,
   (C7_falsy_entry_appends_none [("ghost_style", none)] []).1⟩

/-- C7 counterexample: with one falsy catalog entry the returned sequence is
`[none]` — the key is NOT omitted from the returned sequence (the claim
would make the result empty). -/
theorem C7_counterexample :
    build_bulk_named_style [("ghost_style", (none : Option VEntry))] [] = [none] ∧
    ¬ ((build_bulk_named_style [("ghost_style", (none : Option VEntry))] []).length = 0) := by
  exact ⟨rfl, by decide⟩

lemma registerLoop_append (l1 l2 : List (Option NamedStyle)) :
    ∀ (wb wb1 : Workbook), registerLoop l1 wb = .ok wb1 →
      registerLoop (l1 ++ l2) wb = registerLoop l2 wb1 := by
  induction l1 with
  | nil =>
    intro wb wb1 h
    simp only [registerLoop] at h
    cases h
    rfl
  | cons s rest ih =>
    intro wb wb1 h
    rw [List.cons_append]
    rw [registerLoop] at h ⊢
    cases hadd : add_named_style wb s with
    | ok wb2 =>
      rw [hadd] at h
      exact ih wb2 wb1 h
    | error e =>
      rw [hadd] at h
      simp at h

/-- C8 (amended): when the built style list contains a style whose name is
already registered (a duplicate), `_init_global_styles` fails with the
`ValueError` "Style ... exists" raised by the workbook's style registry
(openpyxl; the repository defines no RegistryError class), the exception
propagates (logged and re-raised), aborting `SetSheetFormatter.__init__`
before any sheet is formatted, and no style after the duplicate is
registered: the workbook holds exactly the styles registered before it. -/
theorem C8_duplicate_style_aborts_init (v : VisualCatalog) (d : DataTypeCatalog)
    (wb wb1 : Workbook) (l1 l2 : List (Option NamedStyle)) (t : NamedStyle)
    (hsplit : build_bulk_named_style v d = l1 ++ (some t :: l2))
    (hpre : registerLoop l1 wb = .ok wb1)
    (hdup : t.name ∈ wb1.named_styles.map NamedStyle.name) :
    init_global_styles wb v d
      = .error (.valueError ("Style " ++ t.name ++ " exists"), wb1) := by
  have hadd : add_named_style wb1 (some t)
      = .error (.valueError ("Style " ++ t.name ++ " exists")) := by
    show (if t.name ∈ wb1.named_styles.map NamedStyle.name then
            (Except.error (PyErr.valueError ("Style " ++ t.name ++ " exists"))
              : Except PyErr Workbook)
          else .ok { named_styles := wb1.named_styles ++ [t] })
        = .error (.valueError ("Style " ++ t.name ++ " exists"))
    rw [if_pos hdup]
  have hloop : registerLoop (some t :: l2) wb1
      = .error (.valueError ("Style " ++ t.name ++ " exists"), wb1) := by
    rw [registerLoop, hadd]
  rw [init_global_styles, hsplit, registerLoop_append l1 (some t :: l2) wb wb1 hpre, hloop]

/-- Witness for C8: a visual catalog declaring the key "s1" twice makes the
second registration fail with ValueError, leaving only the first "s1". -/
theorem C8_duplicate_style_aborts_init_witness :
    (build_bulk_named_style [("s1", some {}), ("s1", some {})] []
      = [some ({ name := "s1" } : NamedStyle)] ++ (some ({ name := "s1" } : NamedStyle) :: [])) ∧
    (registerLoop [some ({ name := "s1" } : NamedStyle)] emptyWorkbook
      = .ok { named_styles := [{ name := "s1" }] }) ∧
    (({ name := "s1" } : NamedStyle).name ∈
      ({ named_styles := [{ name := "s1" }] } : Workbook).named_styles.map NamedStyle.name) ∧
    init_global_styles emptyWorkbook [("s1", some {}), ("s1", some {})] []
      = .error (.valueError ("Style " ++ ({ name := "s1" } : NamedStyle).name ++ " exists"),
          { named_styles := [{ name := "s1" }] }) :=
  ⟨rfl, rfl, by decide,
   C8_duplicate_style_aborts_init [("s1", some {}), ("s1", some {})] []
     emptyWorkbook { named_styles := [{ name := "s1" }] }
     [some { name := "s1" }] [] { name := "s1" } rfl rfl (by decide)⟩

/-- True exactly on a raised (error) result of registry initialisation. -/
def isErrorInit : Except (PyErr × Workbook) Workbook → Bool
  | .error _ => true
  | .ok _ => false

/-- True exactly when registry initialisation raised the spec's
`RegistryError` (which no code constructs, the class not existing). -/
def isRegistryErrorInit : Except (PyErr × Workbook) Workbook → Bool
  | .error (.registryError _, _) => true
  | _ => false

/-- C8 counterexample: a duplicate style name makes `_init_global_styles`
fail, but with `ValueError`, not with a `RegistryError` — no such class
exists in the repository. -/
theorem C8_counterexample :
    isErrorInit (init_global_styles emptyWorkbook
      [("s1", some {}), ("s1", some {})] []) = true ∧
    isRegistryErrorInit (init_global_styles emptyWorkbook
      [("s1", some {}), ("s1", some {})] []) = false := by
  exact ⟨rfl, rfl⟩
